import Mathlib

/-!
Shallow embedding of `src/api/admin/user.js` (the `User` admin facet of the
api-systemmanager SDK): JSON-shaped runtime values, the private helpers
`_returnData` and `_setHeader`, the Joi validation guards, and the three
public operations `findById`, `findByIdAndUpdatePassword` and `emailExist`,
each modelled as a pure function from the injected transport client and the
caller arguments to a promise outcome together with the list of transport
calls it issued.
-/

namespace ApiSystemManager

/-- JavaScript runtime values as far as this module manipulates them:
`undefined`, `null`, booleans, (integer) numbers, strings, plain objects as
association lists, and Boom error objects. `Boom.badRequest(m)` is modelled
as `boom 400 m`: an error value carrying its HTTP status code 400 and the
message it was built from. -/
inductive JsVal where
  | vundefined : JsVal
  | vnull : JsVal
  | vbool : Bool → JsVal
  | vnum : Int → JsVal
  | vstr : String → JsVal
  | vobj : List (String × JsVal) → JsVal
  | boom : Int → JsVal → JsVal
deriving Repr

/-- First binding of a key in an association list, `undefined` when absent. -/
def lookupField : List (String × JsVal) → String → JsVal
  | [], _ => .vundefined
  | (k, v) :: rest, key => if k = key then v else lookupField rest key

/-- JavaScript property access `v.key`: a field of a plain object, the
`message` property of a Boom error, `undefined` on every other value. -/
def JsVal.getProp : JsVal → String → JsVal
  | .vobj fields, key => lookupField fields key
  | .boom _ m, key => if key = "message" then m else .vundefined
  | _, _ => .vundefined

/-- lodash `_.get(v, key, d)`: the property when it resolves to something
other than `undefined`, the default `d` otherwise. -/
def JsVal.getD (v : JsVal) (key : String) (d : JsVal) : JsVal :=
  match v.getProp key with
  | .vundefined => d
  | w => w

/-- JavaScript template-literal stringification, used by the path templates
(after validation the interpolated value is always a string). -/
def jsTemplate : JsVal → String
  | .vundefined => "undefined"
  | .vnull => "null"
  | .vbool b => if b then "true" else "false"
  | .vnum n => toString n
  | .vstr s => s
  | .vobj _ => "[object Object]"
  | .boom _ _ => "[object Error]"

/-- JavaScript strict inequality `v !== n` against a number literal `n`:
true unless `v` is the number `n` itself. -/
def JsVal.strictNeqNum (v : JsVal) (n : Int) : Bool :=
  match v with
  | .vnum m => m ≠ n
  | _ => true

/-- `_returnData(retData, def = {})` of `User`: a non-`200` status yields
`Boom.badRequest(_.get(retData, 'message', 'No error message reported!'))`;
status `200` yields `_.get(retData, 'data', def)`. The JS default `def = {}`
is passed explicitly at every call site of this embedding. -/
def returnData (retData : JsVal) (d : JsVal) : JsVal :=
  if (retData.getProp "status").strictNeqNum 200 then
    .boom 400 (retData.getD "message" (.vstr "No error message reported!"))
  else
    retData.getD "data" d

/-- `_setHeader(session)` of `User`: `{headers: {authorization: session}}`. -/
def setHeader (session : JsVal) : JsVal :=
  .vobj [("headers", .vobj [("authorization", session)])]

/-- Split a character list at every occurrence of a separator. -/
def splitOnChar : List Char → Char → List (List Char)
  | [], _ => [[]]
  | c :: rest, sep =>
    match splitOnChar rest sep with
    | [] => if c = sep then [[], [c]] else [[c]]
    | g :: gs => if c = sep then [] :: g :: gs else (c :: g) :: gs

/-- A very permissive email-shape check: one `@`, a non-empty local part and
a dotted domain made of non-empty groups. Modelled from the spec: the
schema-validation engine (`Joi.string().email()`) is an external black box;
the spec only says "a string formatted as an email". The theorems below
never depend on which strings pass, only on the pass/fail dichotomy. -/
def isEmailFormat (s : String) : Bool :=
  match splitOnChar s.toList '@' with
  | [lp, dom] =>
      (!lp.isEmpty) && (splitOnChar dom '.').length ≥ 2 &&
        (splitOnChar dom '.').all (fun g => !g.isEmpty)
  | _ => false

/-- `Joi.assert(v, Joi.string().required())`: `none` when the assertion
passes, `some message` when it throws a ValidationError. Joi rejects
`undefined` (required), non-strings, and the empty string. -/
def joiStringRequired (v : JsVal) : Option String :=
  match v with
  | .vundefined => some "\"value\" is required"
  | .vstr s => if s = "" then some "\"value\" is not allowed to be empty" else none
  | _ => some "\"value\" must be a string"

/-- `Joi.assert(v, Joi.object().required())`. -/
def joiObjectRequired (v : JsVal) : Option String :=
  match v with
  | .vundefined => some "\"value\" is required"
  | .vobj _ => none
  | _ => some "\"value\" must be of type object"

/-- `Joi.assert(v, Joi.string().email().required())`. -/
def joiStringEmailRequired (v : JsVal) : Option String :=
  match v with
  | .vundefined => some "\"value\" is required"
  | .vstr s =>
      if s = "" then some "\"value\" is not allowed to be empty"
      else if isEmailFormat s then none
      else some "\"value\" must be a valid email"
  | _ => some "\"value\" must be a string"

/-- The ValidationError object a failing `Joi.assert` throws: an error value
with a `message` and no `status` property. -/
def joiError (msg : String) : JsVal :=
  .vobj [("name", .vstr "ValidationError"), ("isJoi", .vbool true),
         ("message", .vstr msg)]

/-- One invocation of the injected transport client, as issued by this
module: verb, path, body (for POST/PUT) and the metadata/headers object. -/
inductive TransportCall where
  | get (path : String) (meta : JsVal)
  | post (path : String) (body : JsVal) (meta : JsVal)
  | put (path : String) (body : JsVal) (meta : JsVal)
deriving Repr

/-- What an awaited transport call does: resolve with a response value, or
raise (reject with) an exception value. -/
inductive TransportResult where
  | ok (resp : JsVal)
  | raised (ex : JsVal)
deriving Repr

/-- The injected transport client (`self.client`), as a behavior: what each
call would resolve with or raise. -/
abbrev Client := TransportCall → TransportResult

/-- Outcome of one public operation's promise. -/
inductive Outcome where
  | resolved (v : JsVal)
  | rejected (v : JsVal)
deriving Repr

/-- The dispatch/normalize/settle tail shared verbatim by the three public
methods: `const retData = self._returnData(await apiCall); resolve(retData)`
in the try block, `reject(self._returnData(ex))` in the catch block. An
awaited response is normalized and resolved; a raised exception is
normalized and rejected. Returns the outcome together with the (singleton)
list of transport calls issued. -/
def runCall (client : Client) (call : TransportCall) :
    Outcome × List TransportCall :=
  match client call with
  | .ok resp => (.resolved (returnData resp (.vobj [])), [call])
  | .raised ex => (.rejected (returnData ex (.vobj [])), [call])

/-- `findById(userId, session)`: validate both arguments, then
`GET /admin/users/${userId}` with the session header; the awaited response
goes through `_returnData` and is resolved; any exception (ValidationError or
a raised transport exception) goes through `_returnData` and is rejected.
Returns the outcome together with the list of transport calls issued. -/
def findById (client : Client) (userId session : JsVal) :
    Outcome × List TransportCall :=
  match joiStringRequired userId with
  | some msg => (.rejected (returnData (joiError msg) (.vobj [])), [])
  | none =>
    match joiStringRequired session with
    | some msg => (.rejected (returnData (joiError msg) (.vobj [])), [])
    | none =>
      runCall client
        (.get ("/admin/users/" ++ jsTemplate userId) (setHeader session))

/-- Every binding of an association list except the given key. -/
def removeField (fields : List (String × JsVal)) (key : String) :
    List (String × JsVal) :=
  fields.filter (fun p => p.1 ≠ key)

/-- The object rest spread `const {userId, ...payload} = params`: every own
field of `params` except `userId` (a non-object is passed through; the
validation that already ran guarantees `params` is an object). -/
def restWithoutUserId (params : JsVal) : JsVal :=
  match params with
  | .vobj fs => .vobj (removeField fs "userId")
  | other => other

/-- `findByIdAndUpdatePassword(params, session)`: validate `params` as an
object, its `userId`, `oldPassword`, `newPassword` fields and `session` as
required strings, then `PUT /admin/users/${userId}/password` with body
`params` minus `userId`, through the same normalize/resolve/reject path. -/
def findByIdAndUpdatePassword (client : Client) (params session : JsVal) :
    Outcome × List TransportCall :=
  match joiObjectRequired params with
  | some msg => (.rejected (returnData (joiError msg) (.vobj [])), [])
  | none =>
    match joiStringRequired (params.getProp "userId") with
    | some msg => (.rejected (returnData (joiError msg) (.vobj [])), [])
    | none =>
      match joiStringRequired (params.getProp "oldPassword") with
      | some msg => (.rejected (returnData (joiError msg) (.vobj [])), [])
      | none =>
        match joiStringRequired (params.getProp "newPassword") with
        | some msg => (.rejected (returnData (joiError msg) (.vobj [])), [])
        | none =>
          match joiStringRequired session with
          | some msg => (.rejected (returnData (joiError msg) (.vobj [])), [])
          | none =>
            let payload := restWithoutUserId params
            runCall client
              (.put ("/admin/users/" ++ jsTemplate (params.getProp "userId") ++ "/password")
                payload (setHeader session))

/-- `emailExist(email, session)`: validate `email` as a required email
string and `session` as a required string, then
`POST /admin/users/email/exist` with body `{email}`, through the same
normalize/resolve/reject path. -/
def emailExist (client : Client) (email session : JsVal) :
    Outcome × List TransportCall :=
  match joiStringEmailRequired email with
  | some msg => (.rejected (returnData (joiError msg) (.vobj [])), [])
  | none =>
    match joiStringRequired session with
    | some msg => (.rejected (returnData (joiError msg) (.vobj [])), [])
    | none =>
      runCall client
        (.post "/admin/users/email/exist" (.vobj [("email", email)])
          (setHeader session))

/-! ### The concrete transport calls each operation issues -/

/-- The GET call issued by `findById` for string arguments. -/
def findByIdCall (u s : String) : TransportCall :=
  .get ("/admin/users/" ++ u) (setHeader (.vstr s))

/-- The canonical valid parameter object of `findByIdAndUpdatePassword`. -/
def pwParams (u o n : String) : JsVal :=
  .vobj [("userId", .vstr u), ("oldPassword", .vstr o), ("newPassword", .vstr n)]

/-- The PUT call issued by `findByIdAndUpdatePassword` on `pwParams u o n`. -/
def updatePasswordCall (u o n s : String) : TransportCall :=
  .put ("/admin/users/" ++ u ++ "/password")
    (.vobj [("oldPassword", .vstr o), ("newPassword", .vstr n)])
    (setHeader (.vstr s))

/-- The POST call issued by `emailExist` for string arguments. -/
def emailExistCall (em s : String) : TransportCall :=
  .post "/admin/users/email/exist" (.vobj [("email", .vstr em)])
    (setHeader (.vstr s))

/-! ### Helper lemmas -/

theorem joiStringRequired_eq_none (s : String) (h : s ≠ "") :
    joiStringRequired (.vstr s) = none := by
  simp [joiStringRequired, h]

theorem isEmailFormat_empty : isEmailFormat "" = false := rfl

theorem joiStringEmailRequired_eq_none (s : String)
    (h : isEmailFormat s = true) : joiStringEmailRequired (.vstr s) = none := by
  have hne : s ≠ "" := by
    intro he
    rw [he, isEmailFormat_empty] at h
    exact absurd h (by decide)
  simp [joiStringEmailRequired, hne, h]

theorem returnData_joiError (m : String) (d : JsVal) :
    returnData (joiError m) d = .boom 400 (.vstr m) := rfl

theorem strictNeqNum_of_ne : ∀ (v : JsVal) (n : Int), v ≠ .vnum n →
    v.strictNeqNum n = true
  | .vundefined, _, _ => rfl
  | .vnull, _, _ => rfl
  | .vbool _, _, _ => rfl
  | .vstr _, _, _ => rfl
  | .vobj _, _, _ => rfl
  | .boom _ _, _, _ => rfl
  | .vnum m, n, h => by
      simp only [JsVal.strictNeqNum, ne_eq, decide_eq_true_eq]
      intro hc
      exact h (by rw [hc])

theorem strictNeqNum_self (n : Int) : (JsVal.vnum n).strictNeqNum n = false := by
  simp [JsVal.strictNeqNum]

/-- `_returnData` on a non-`200` result: a Boom 400 whose message is the
result's `message` field, defaulting to the fixed placeholder. -/
theorem returnData_of_ne_200 (r d : JsVal) (h : r.getProp "status" ≠ .vnum 200) :
    returnData r d = .boom 400 (r.getD "message" (.vstr "No error message reported!")) := by
  rw [returnData, strictNeqNum_of_ne _ _ h]
  rfl

/-- `_returnData` on a status-`200` result: the `data` field, defaulted. -/
theorem returnData_of_200 (r d : JsVal) (h : r.getProp "status" = .vnum 200) :
    returnData r d = r.getD "data" d := by
  rw [returnData, h, strictNeqNum_self]
  rfl

/-- `runCall` when the transport call resolves. -/
theorem runCall_ok (client : Client) (call : TransportCall) (resp : JsVal)
    (hc : client call = .ok resp) :
    runCall client call = (.resolved (returnData resp (.vobj [])), [call]) := by
  rw [runCall, hc]

/-- `runCall` when the transport call raises. -/
theorem runCall_raised (client : Client) (call : TransportCall) (ex : JsVal)
    (hc : client call = .raised ex) :
    runCall client call = (.rejected (returnData ex (.vobj [])), [call]) := by
  rw [runCall, hc]

/-- Running `findById` past validation: one GET, the client answer decides
the outcome. -/
theorem findById_run (client : Client) (u s : String) (hu : u ≠ "") (hs : s ≠ "") :
    findById client (.vstr u) (.vstr s) = runCall client (findByIdCall u s) := by
  unfold findById
  rw [joiStringRequired_eq_none u hu, joiStringRequired_eq_none s hs]
  rfl

/-- Running `findByIdAndUpdatePassword` past validation on the canonical
parameter object: one PUT with `userId` stripped from the body. -/
theorem findByIdAndUpdatePassword_run (client : Client) (u o n s : String)
    (hu : u ≠ "") (ho : o ≠ "") (hn : n ≠ "") (hs : s ≠ "") :
    findByIdAndUpdatePassword client (pwParams u o n) (.vstr s) =
      runCall client (updatePasswordCall u o n s) := by
  have h0 : joiObjectRequired (pwParams u o n) = none := rfl
  have h1 : (pwParams u o n).getProp "userId" = .vstr u := rfl
  have h2 : (pwParams u o n).getProp "oldPassword" = .vstr o := rfl
  have h3 : (pwParams u o n).getProp "newPassword" = .vstr n := rfl
  unfold findByIdAndUpdatePassword
  rw [h0, h1, h2, h3,
    joiStringRequired_eq_none u hu, joiStringRequired_eq_none o ho,
    joiStringRequired_eq_none n hn, joiStringRequired_eq_none s hs]
  rfl

/-- Running `emailExist` past validation: one POST with body `{email}`. -/
theorem emailExist_run (client : Client) (em s : String)
    (hem : isEmailFormat em = true) (hs : s ≠ "") :
    emailExist client (.vstr em) (.vstr s) = runCall client (emailExistCall em s) := by
  unfold emailExist
  rw [joiStringEmailRequired_eq_none em hem, joiStringRequired_eq_none s hs]
  rfl

/-- The trace of `runCall` is always the single dispatched call. -/
theorem runCall_trace (client : Client) (call : TransportCall) :
    (runCall client call).2 = [call] := by
  unfold runCall
  cases hc : client call <;> rfl

/-- `_.get` returns the present property when it is not `undefined`. -/
theorem getD_of_ne_undefined (v : JsVal) (k : String) (d X : JsVal)
    (h : v.getProp k = X) (hX : X ≠ .vundefined) : v.getD k d = X := by
  unfold JsVal.getD
  rw [h]
  cases X
  · exact absurd rfl hX
  all_goals rfl

/-- `_.get` returns the default when the property is `undefined`. -/
theorem getD_of_undefined (v : JsVal) (k : String) (d : JsVal)
    (h : v.getProp k = .vundefined) : v.getD k d = d := by
  unfold JsVal.getD
  rw [h]

/-- `findById` rejects before dispatch when `userId` fails validation. -/
theorem findById_invalid_userId (client : Client) (userId session : JsVal)
    (m : String) (h : joiStringRequired userId = some m) :
    findById client userId session = (.rejected (.boom 400 (.vstr m)), []) := by
  unfold findById
  rw [h]
  rfl

/-- `findById` rejects before dispatch when `session` fails validation. -/
theorem findById_invalid_session (client : Client) (userId session : JsVal)
    (m : String) (h0 : joiStringRequired userId = none)
    (h : joiStringRequired session = some m) :
    findById client userId session = (.rejected (.boom 400 (.vstr m)), []) := by
  unfold findById
  rw [h0, h]
  rfl

/-- `findByIdAndUpdatePassword` rejects before dispatch on an invalid
`params` value. -/
theorem updatePassword_invalid_params (client : Client) (params session : JsVal)
    (m : String) (h : joiObjectRequired params = some m) :
    findByIdAndUpdatePassword client params session =
      (.rejected (.boom 400 (.vstr m)), []) := by
  unfold findByIdAndUpdatePassword
  rw [h]
  rfl

/-- `findByIdAndUpdatePassword` rejects before dispatch on an invalid
`params.userId`. -/
theorem updatePassword_invalid_userId (client : Client) (params session : JsVal)
    (m : String) (h0 : joiObjectRequired params = none)
    (h : joiStringRequired (params.getProp "userId") = some m) :
    findByIdAndUpdatePassword client params session =
      (.rejected (.boom 400 (.vstr m)), []) := by
  unfold findByIdAndUpdatePassword
  rw [h0, h]
  rfl

/-- `findByIdAndUpdatePassword` rejects before dispatch on an invalid
`params.oldPassword`. -/
theorem updatePassword_invalid_oldPassword (client : Client)
    (params session : JsVal) (m : String) (h0 : joiObjectRequired params = none)
    (h1 : joiStringRequired (params.getProp "userId") = none)
    (h : joiStringRequired (params.getProp "oldPassword") = some m) :
    findByIdAndUpdatePassword client params session =
      (.rejected (.boom 400 (.vstr m)), []) := by
  unfold findByIdAndUpdatePassword
  rw [h0, h1, h]
  rfl

/-- `findByIdAndUpdatePassword` rejects before dispatch on an invalid
`params.newPassword`. -/
theorem updatePassword_invalid_newPassword (client : Client)
    (params session : JsVal) (m : String) (h0 : joiObjectRequired params = none)
    (h1 : joiStringRequired (params.getProp "userId") = none)
    (h2 : joiStringRequired (params.getProp "oldPassword") = none)
    (h : joiStringRequired (params.getProp "newPassword") = some m) :
    findByIdAndUpdatePassword client params session =
      (.rejected (.boom 400 (.vstr m)), []) := by
  unfold findByIdAndUpdatePassword
  rw [h0, h1, h2, h]
  rfl

/-- `findByIdAndUpdatePassword` rejects before dispatch on an invalid
`session`. -/
theorem updatePassword_invalid_session (client : Client)
    (params session : JsVal) (m : String) (h0 : joiObjectRequired params = none)
    (h1 : joiStringRequired (params.getProp "userId") = none)
    (h2 : joiStringRequired (params.getProp "oldPassword") = none)
    (h3 : joiStringRequired (params.getProp "newPassword") = none)
    (h : joiStringRequired session = some m) :
    findByIdAndUpdatePassword client params session =
      (.rejected (.boom 400 (.vstr m)), []) := by
  unfold findByIdAndUpdatePassword
  rw [h0, h1, h2, h3, h]
  rfl

/-- `emailExist` rejects before dispatch when `email` fails validation. -/
theorem emailExist_invalid_email (client : Client) (email session : JsVal)
    (m : String) (h : joiStringEmailRequired email = some m) :
    emailExist client email session = (.rejected (.boom 400 (.vstr m)), []) := by
  unfold emailExist
  rw [h]
  rfl

/-- `emailExist` rejects before dispatch when `session` fails validation. -/
theorem emailExist_invalid_session (client : Client) (email session : JsVal)
    (m : String) (h0 : joiStringEmailRequired email = none)
    (h : joiStringRequired session = some m) :
    emailExist client email session = (.rejected (.boom 400 (.vstr m)), []) := by
  unfold emailExist
  rw [h0, h]
  rfl

/-- Inversion: a rejection coming out of the dispatch tail is `_returnData`
of the raised exception. -/
theorem runCall_rejected_inv (client : Client) (call : TransportCall)
    (v : JsVal) (h : (runCall client call).1 = .rejected v) :
    ∃ ex, v = returnData ex (.vobj []) := by
  unfold runCall at h
  cases hc : client call with
  | ok resp =>
      rw [hc] at h
      exact Outcome.noConfusion h
  | raised ex =>
      rw [hc] at h
      exact ⟨ex, (Outcome.rejected.inj h).symm⟩

/-! ### Concrete transport stubs used by counterexamples and witnesses -/

/-- A transport stub resolving every call with the same response. -/
def staticOkClient (resp : JsVal) : Client := fun _ => .ok resp

/-- A transport stub raising the same exception on every call. -/
def staticRaiseClient (ex : JsVal) : Client := fun _ => .raised ex

/-- A 500 response carrying a message. -/
def resp500 : JsVal := .vobj [("status", .vnum 500), ("message", .vstr "boom")]

/-- A 500 response with no message field. -/
def resp500bare : JsVal := .vobj [("status", .vnum 500)]

/-- A 200 response carrying data. -/
def resp200 : JsVal :=
  .vobj [("status", .vnum 200), ("data", .vstr "payload")]

/-- A 200 response with no data field. -/
def resp200bare : JsVal := .vobj [("status", .vnum 200)]

/-- A raised exception whose status is 200 and whose data is a bare string. -/
def status200Ex : JsVal := .vobj [("status", .vnum 200), ("data", .vstr "oops")]

/-- A transport stub that answers GET calls with the 200 response and raises
on everything else. -/
def getOnlyClient : Client := fun c =>
  match c with
  | .get _ _ => .ok resp200
  | _ => .raised resp500

/-! ### Claim theorems -/

/-- C1 (counterexample): against a transport stub that returns (without
raising) the response with status 500 and message "boom", `findById` with
valid arguments does not reject. Its promise RESOLVES with the Boom error
value, so the claim that the promise is rejected with that message is false
at this input. -/
theorem C1_counterexample :
    (findById (staticOkClient resp500) (.vstr "u1") (.vstr "tok")).1 =
      .resolved (.boom 400 (.vstr "boom")) ∧
    (findById (staticOkClient resp500) (.vstr "u1") (.vstr "tok")).1 ≠
      .rejected (.boom 400 (.vstr "boom")) := by
  refine ⟨rfl, fun h => ?_⟩
  exact Outcome.noConfusion h

/-- C1 (amended): for every operation, if the transport call returns without
raising a response whose status is not 200 and whose message field is the
string msg, the promise is RESOLVED, not rejected, with a Boom bad-request
error whose message is exactly msg verbatim. -/
theorem C1_amended (client : Client) (u o n em s msg : String) (resp : JsVal)
    (hu : u ≠ "") (ho : o ≠ "") (hn : n ≠ "") (hem : isEmailFormat em = true)
    (hs : s ≠ "")
    (hst : resp.getProp "status" ≠ .vnum 200)
    (hm : resp.getProp "message" = .vstr msg)
    (h1 : client (findByIdCall u s) = .ok resp)
    (h2 : client (updatePasswordCall u o n s) = .ok resp)
    (h3 : client (emailExistCall em s) = .ok resp) :
    (findById client (.vstr u) (.vstr s)).1 =
      .resolved (.boom 400 (.vstr msg)) ∧
    (findByIdAndUpdatePassword client (pwParams u o n) (.vstr s)).1 =
      .resolved (.boom 400 (.vstr msg)) ∧
    (emailExist client (.vstr em) (.vstr s)).1 =
      .resolved (.boom 400 (.vstr msg)) := by
  have hrd : returnData resp (.vobj []) = .boom 400 (.vstr msg) := by
    rw [returnData_of_ne_200 resp _ hst,
        getD_of_ne_undefined resp "message" _ _ hm (fun hc => JsVal.noConfusion hc)]
  rw [findById_run client u s hu hs, runCall_ok _ _ _ h1,
      findByIdAndUpdatePassword_run client u o n s hu ho hn hs,
      runCall_ok _ _ _ h2,
      emailExist_run client em s hem hs, runCall_ok _ _ _ h3, hrd]
  exact ⟨rfl, rfl, rfl⟩

/-- C1 (witness): the amended theorem applied to the stub returning the 500
response with message "boom". -/
theorem C1_amended_witness :
    (findById (staticOkClient resp500) (.vstr "u1") (.vstr "tok")).1 =
      .resolved (.boom 400 (.vstr "boom")) ∧
    (findByIdAndUpdatePassword (staticOkClient resp500)
        (pwParams "u1" "a" "b") (.vstr "tok")).1 =
      .resolved (.boom 400 (.vstr "boom")) ∧
    (emailExist (staticOkClient resp500) (.vstr "ana@x.com") (.vstr "tok")).1 =
      .resolved (.boom 400 (.vstr "boom")) :=
  C1_amended (staticOkClient resp500) "u1" "a" "b" "ana@x.com" "tok" "boom"
    resp500 (by decide) (by decide) (by decide) rfl (by decide)
    (fun h => absurd (JsVal.vnum.inj h) (by decide))
    rfl rfl rfl rfl

/-- C2: for every operation, a transport response with status exactly 200
and a data field with value X (not undefined) resolves with exactly X, and
with no data field resolves with the empty object. -/
theorem C2_success_data (client : Client) (u o n em s : String) (resp X : JsVal)
    (hu : u ≠ "") (ho : o ≠ "") (hn : n ≠ "") (hem : isEmailFormat em = true)
    (hs : s ≠ "")
    (h200 : resp.getProp "status" = .vnum 200)
    (h1 : client (findByIdCall u s) = .ok resp)
    (h2 : client (updatePasswordCall u o n s) = .ok resp)
    (h3 : client (emailExistCall em s) = .ok resp) :
    ((resp.getProp "data" = X ∧ X ≠ .vundefined) →
      ((findById client (.vstr u) (.vstr s)).1 = .resolved X ∧
       (findByIdAndUpdatePassword client (pwParams u o n) (.vstr s)).1 =
         .resolved X ∧
       (emailExist client (.vstr em) (.vstr s)).1 = .resolved X)) ∧
    (resp.getProp "data" = .vundefined →
      ((findById client (.vstr u) (.vstr s)).1 = .resolved (.vobj []) ∧
       (findByIdAndUpdatePassword client (pwParams u o n) (.vstr s)).1 =
         .resolved (.vobj []) ∧
       (emailExist client (.vstr em) (.vstr s)).1 = .resolved (.vobj []))) := by
  rw [findById_run client u s hu hs, runCall_ok _ _ _ h1,
      findByIdAndUpdatePassword_run client u o n s hu ho hn hs,
      runCall_ok _ _ _ h2,
      emailExist_run client em s hem hs, runCall_ok _ _ _ h3,
      returnData_of_200 resp _ h200]
  constructor
  · rintro ⟨hd, hX⟩
    rw [getD_of_ne_undefined resp "data" _ X hd hX]
    exact ⟨rfl, rfl, rfl⟩
  · intro hd
    rw [getD_of_undefined resp "data" _ hd]
    exact ⟨rfl, rfl, rfl⟩

/-- C2 (witness): the theorem applied to 200-responses with and without a
data field. -/
theorem C2_success_data_witness :
    (findById (staticOkClient resp200) (.vstr "u1") (.vstr "tok")).1 =
      .resolved (.vstr "payload") ∧
    (findById (staticOkClient resp200bare) (.vstr "u1") (.vstr "tok")).1 =
      .resolved (.vobj []) := by
  constructor
  · exact ((C2_success_data (staticOkClient resp200) "u1" "a" "b" "ana@x.com"
      "tok" resp200 (.vstr "payload") (by decide) (by decide) (by decide) rfl
      (by decide) rfl rfl rfl rfl).1
      ⟨rfl, fun h => JsVal.noConfusion h⟩).1
  · exact ((C2_success_data (staticOkClient resp200bare) "u1" "a" "b"
      "ana@x.com" "tok" resp200bare (.vstr "payload") (by decide) (by decide)
      (by decide) rfl (by decide) rfl rfl rfl rfl).2 rfl).1

/-- C3: for every operation, an argument failing its Joi validation makes
the operation reject with the Boom-wrapped validation error and the
transport dispatcher is invoked zero times (empty trace): validation
completes before any dispatch. -/
theorem C3_failfast (client : Client) (userId session params email : JsVal) :
    ((joiStringRequired userId ≠ none ∨ joiStringRequired session ≠ none) →
      ∃ m, findById client userId session =
        (.rejected (.boom 400 (.vstr m)), [])) ∧
    ((joiObjectRequired params ≠ none ∨
      joiStringRequired (params.getProp "userId") ≠ none ∨
      joiStringRequired (params.getProp "oldPassword") ≠ none ∨
      joiStringRequired (params.getProp "newPassword") ≠ none ∨
      joiStringRequired session ≠ none) →
      ∃ m, findByIdAndUpdatePassword client params session =
        (.rejected (.boom 400 (.vstr m)), [])) ∧
    ((joiStringEmailRequired email ≠ none ∨ joiStringRequired session ≠ none) →
      ∃ m, emailExist client email session =
        (.rejected (.boom 400 (.vstr m)), [])) := by
  refine ⟨?_, ?_, ?_⟩
  · intro hinv
    cases h1 : joiStringRequired userId with
    | some m => exact ⟨m, findById_invalid_userId client userId session m h1⟩
    | none =>
      cases h2 : joiStringRequired session with
      | some m => exact ⟨m, findById_invalid_session client userId session m h1 h2⟩
      | none =>
        rcases hinv with h | h
        · exact absurd h1 h
        · exact absurd h2 h
  · intro hinv
    cases h0 : joiObjectRequired params with
    | some m => exact ⟨m, updatePassword_invalid_params client params session m h0⟩
    | none =>
      cases h1 : joiStringRequired (params.getProp "userId") with
      | some m =>
          exact ⟨m, updatePassword_invalid_userId client params session m h0 h1⟩
      | none =>
        cases h2 : joiStringRequired (params.getProp "oldPassword") with
        | some m =>
            exact ⟨m, updatePassword_invalid_oldPassword client params session m h0 h1 h2⟩
        | none =>
          cases h3 : joiStringRequired (params.getProp "newPassword") with
          | some m =>
              exact ⟨m, updatePassword_invalid_newPassword client params session m h0 h1 h2 h3⟩
          | none =>
            cases h4 : joiStringRequired session with
            | some m =>
                exact ⟨m, updatePassword_invalid_session client params session m h0 h1 h2 h3 h4⟩
            | none =>
              rcases hinv with h | h | h | h | h
              · exact absurd h0 h
              · exact absurd h1 h
              · exact absurd h2 h
              · exact absurd h3 h
              · exact absurd h4 h
  · intro hinv
    cases h1 : joiStringEmailRequired email with
    | some m => exact ⟨m, emailExist_invalid_email client email session m h1⟩
    | none =>
      cases h2 : joiStringRequired session with
      | some m => exact ⟨m, emailExist_invalid_session client email session m h1 h2⟩
      | none =>
        rcases hinv with h | h
        · exact absurd h1 h
        · exact absurd h2 h

/-- C3 (witness): a numeric userId, a params object missing oldPassword and
a non-email string each reject with no transport call recorded. -/
theorem C3_failfast_witness :
    (∃ m, findById (staticOkClient resp200) (.vnum 5) (.vstr "tok") =
      (.rejected (.boom 400 (.vstr m)), [])) ∧
    (∃ m, findByIdAndUpdatePassword (staticOkClient resp200)
      (.vobj [("userId", .vstr "u1")]) (.vstr "tok") =
      (.rejected (.boom 400 (.vstr m)), [])) ∧
    (∃ m, emailExist (staticOkClient resp200) (.vstr "not-an-email")
      (.vstr "tok") = (.rejected (.boom 400 (.vstr m)), [])) := by
  refine ⟨?_, ?_, ?_⟩
  · exact (C3_failfast (staticOkClient resp200) (.vnum 5) (.vstr "tok")
      (.vobj [("userId", .vstr "u1")]) (.vstr "not-an-email")).1
      (Or.inl (fun h => Option.noConfusion h))
  · exact ((C3_failfast (staticOkClient resp200) (.vnum 5) (.vstr "tok")
      (.vobj [("userId", .vstr "u1")]) (.vstr "not-an-email")).2.1
      (Or.inr (Or.inr (Or.inl (fun h => Option.noConfusion h)))))
  · exact (C3_failfast (staticOkClient resp200) (.vnum 5) (.vstr "tok")
      (.vobj [("userId", .vstr "u1")]) (.vstr "not-an-email")).2.2
      (Or.inl (fun h => Option.noConfusion h))

/-- C4: for every operation, whether the transport result is a returned
response or a raised exception, a non-200 status with no message field makes
the resulting Boom error's message exactly "No error message reported!"
(the returned-response path resolves with the error, the raised path
rejects it). -/
theorem C4_default_message (u o n em s : String) (r : JsVal)
    (hu : u ≠ "") (ho : o ≠ "") (hn : n ≠ "") (hem : isEmailFormat em = true)
    (hs : s ≠ "")
    (hst : r.getProp "status" ≠ .vnum 200)
    (hmsg : r.getProp "message" = .vundefined) :
    ((findById (staticOkClient r) (.vstr u) (.vstr s)).1 =
       .resolved (.boom 400 (.vstr "No error message reported!")) ∧
     (findByIdAndUpdatePassword (staticOkClient r) (pwParams u o n)
        (.vstr s)).1 =
       .resolved (.boom 400 (.vstr "No error message reported!")) ∧
     (emailExist (staticOkClient r) (.vstr em) (.vstr s)).1 =
       .resolved (.boom 400 (.vstr "No error message reported!"))) ∧
    ((findById (staticRaiseClient r) (.vstr u) (.vstr s)).1 =
       .rejected (.boom 400 (.vstr "No error message reported!")) ∧
     (findByIdAndUpdatePassword (staticRaiseClient r) (pwParams u o n)
        (.vstr s)).1 =
       .rejected (.boom 400 (.vstr "No error message reported!")) ∧
     (emailExist (staticRaiseClient r) (.vstr em) (.vstr s)).1 =
       .rejected (.boom 400 (.vstr "No error message reported!"))) := by
  have hrd : returnData r (.vobj []) =
      .boom 400 (.vstr "No error message reported!") := by
    rw [returnData_of_ne_200 r _ hst, getD_of_undefined r "message" _ hmsg]
  refine ⟨⟨?_, ?_, ?_⟩, ⟨?_, ?_, ?_⟩⟩
  · rw [findById_run _ u s hu hs, runCall_ok _ _ r rfl, hrd]
  · rw [findByIdAndUpdatePassword_run _ u o n s hu ho hn hs,
      runCall_ok _ _ r rfl, hrd]
  · rw [emailExist_run _ em s hem hs, runCall_ok _ _ r rfl, hrd]
  · rw [findById_run _ u s hu hs, runCall_raised _ _ r rfl, hrd]
  · rw [findByIdAndUpdatePassword_run _ u o n s hu ho hn hs,
      runCall_raised _ _ r rfl, hrd]
  · rw [emailExist_run _ em s hem hs, runCall_raised _ _ r rfl, hrd]

/-- C4 (witness): the theorem applied to a bare 500 response. -/
theorem C4_default_message_witness :
    (findById (staticOkClient resp500bare) (.vstr "u1") (.vstr "tok")).1 =
      .resolved (.boom 400 (.vstr "No error message reported!")) ∧
    (findById (staticRaiseClient resp500bare) (.vstr "u1") (.vstr "tok")).1 =
      .rejected (.boom 400 (.vstr "No error message reported!")) := by
  have h := C4_default_message "u1" "a" "b" "ana@x.com" "tok" resp500bare
    (by decide) (by decide) (by decide) rfl (by decide)
    (fun h => absurd (JsVal.vnum.inj h) (by decide)) rfl
  exact ⟨h.1.1, h.2.1⟩

/-- C5: for valid password-update parameters, `findByIdAndUpdatePassword`
issues exactly one PUT to /admin/users/{userId}/password whose body carries
exactly the oldPassword and newPassword fields; userId is excluded from the
body. -/
theorem C5_put_shape (client : Client) (u o n s : String)
    (hu : u ≠ "") (ho : o ≠ "") (hn : n ≠ "") (hs : s ≠ "") :
    (findByIdAndUpdatePassword client (pwParams u o n) (.vstr s)).2 =
      [updatePasswordCall u o n s] ∧
    updatePasswordCall u o n s =
      .put ("/admin/users/" ++ u ++ "/password")
        (.vobj [("oldPassword", .vstr o), ("newPassword", .vstr n)])
        (setHeader (.vstr s)) := by
  refine ⟨?_, rfl⟩
  rw [findByIdAndUpdatePassword_run client u o n s hu ho hn hs, runCall_trace]

/-- C5 (witness): the theorem applied to the spec scenario with
userId u1, oldPassword a, newPassword b. -/
theorem C5_put_shape_witness :
    (findByIdAndUpdatePassword (staticOkClient resp200)
        (pwParams "u1" "a" "b") (.vstr "tok")).2 =
      [updatePasswordCall "u1" "a" "b" "tok"] ∧
    updatePasswordCall "u1" "a" "b" "tok" =
      .put "/admin/users/u1/password"
        (.vobj [("oldPassword", .vstr "a"), ("newPassword", .vstr "b")])
        (setHeader (.vstr "tok")) :=
  C5_put_shape (staticOkClient resp200) "u1" "a" "b" "tok"
    (by decide) (by decide) (by decide) (by decide)

/-- C6: for every string that is not email-formatted, `emailExist` rejects
with the Boom-wrapped validation error and issues zero transport calls. -/
theorem C6_email_validation (client : Client) (em : String) (session : JsVal)
    (hem : isEmailFormat em = false) :
    ∃ m, emailExist client (.vstr em) session =
      (.rejected (.boom 400 (.vstr m)), []) := by
  have hv : ∃ m, joiStringEmailRequired (.vstr em) = some m := by
    by_cases he : em = ""
    · exact ⟨"\"value\" is not allowed to be empty",
        by simp [joiStringEmailRequired, he]⟩
    · exact ⟨"\"value\" must be a valid email",
        by simp [joiStringEmailRequired, he, hem]⟩
  obtain ⟨m, hm⟩ := hv
  exact ⟨m, emailExist_invalid_email client _ session m hm⟩

/-- C6 (witness): the spec scenario input not-an-email rejects without any
transport invocation. -/
theorem C6_email_validation_witness :
    ∃ m, emailExist (staticOkClient resp200) (.vstr "not-an-email")
      (.vstr "tok") = (.rejected (.boom 400 (.vstr m)), []) :=
  C6_email_validation (staticOkClient resp200) "not-an-email" (.vstr "tok") rfl

/-- C7 (counterexample): when the transport raises an exception whose status
is 200 and whose data is the bare string "oops", `findById` with valid
arguments rejects with that bare string, which carries neither a status nor
a message property — so the claim that every rejection value is a plain
object with status and message fields is false at this input. -/
theorem C7_counterexample :
    (findById (staticRaiseClient status200Ex) (.vstr "u1") (.vstr "tok")).1 =
      .rejected (.vstr "oops") ∧
    (JsVal.vstr "oops").getProp "status" = .vundefined ∧
    (JsVal.vstr "oops").getProp "message" = .vundefined :=
  ⟨rfl, rfl, rfl⟩

/-- C7 (amended): whenever an operation rejects, the rejection value is
`_returnData` applied to the caught exception; that value is a Boom 400
error carrying a message exactly when the caught exception's status is not
200 (in particular for every validation error), but it is the exception's
data field — not an error object — when the caught status is 200. -/
theorem C7_amended :
    (∀ (client : Client) (userId session v : JsVal),
      (findById client userId session).1 = .rejected v →
      ∃ ex, v = returnData ex (.vobj [])) ∧
    (∀ (client : Client) (params session v : JsVal),
      (findByIdAndUpdatePassword client params session).1 = .rejected v →
      ∃ ex, v = returnData ex (.vobj [])) ∧
    (∀ (client : Client) (email session v : JsVal),
      (emailExist client email session).1 = .rejected v →
      ∃ ex, v = returnData ex (.vobj [])) ∧
    (∀ ex : JsVal, ex.getProp "status" ≠ .vnum 200 →
      returnData ex (.vobj []) =
        .boom 400 (ex.getD "message" (.vstr "No error message reported!"))) ∧
    (∀ ex : JsVal, ex.getProp "status" = .vnum 200 →
      returnData ex (.vobj []) = ex.getD "data" (.vobj [])) := by
  refine ⟨?_, ?_, ?_, ?_, ?_⟩
  · intro client userId session v h
    unfold findById at h
    cases h1 : joiStringRequired userId with
    | some m =>
        rw [h1] at h
        exact ⟨joiError m, by
          rw [returnData_joiError]
          exact (Outcome.rejected.inj h).symm⟩
    | none =>
      rw [h1] at h
      cases h2 : joiStringRequired session with
      | some m =>
          rw [h2] at h
          exact ⟨joiError m, by
            rw [returnData_joiError]
            exact (Outcome.rejected.inj h).symm⟩
      | none =>
          rw [h2] at h
          exact runCall_rejected_inv client _ v h
  · intro client params session v h
    unfold findByIdAndUpdatePassword at h
    cases h0 : joiObjectRequired params with
    | some m =>
        rw [h0] at h
        exact ⟨joiError m, by
          rw [returnData_joiError]
          exact (Outcome.rejected.inj h).symm⟩
    | none =>
      rw [h0] at h
      cases h1 : joiStringRequired (params.getProp "userId") with
      | some m =>
          rw [h1] at h
          exact ⟨joiError m, by
            rw [returnData_joiError]
            exact (Outcome.rejected.inj h).symm⟩
      | none =>
        rw [h1] at h
        cases h2 : joiStringRequired (params.getProp "oldPassword") with
        | some m =>
            rw [h2] at h
            exact ⟨joiError m, by
              rw [returnData_joiError]
              exact (Outcome.rejected.inj h).symm⟩
        | none =>
          rw [h2] at h
          cases h3 : joiStringRequired (params.getProp "newPassword") with
          | some m =>
              rw [h3] at h
              exact ⟨joiError m, by
                rw [returnData_joiError]
                exact (Outcome.rejected.inj h).symm⟩
          | none =>
            rw [h3] at h
            cases h4 : joiStringRequired session with
            | some m =>
                rw [h4] at h
                exact ⟨joiError m, by
                  rw [returnData_joiError]
                  exact (Outcome.rejected.inj h).symm⟩
            | none =>
                rw [h4] at h
                exact runCall_rejected_inv client _ v h
  · intro client email session v h
    unfold emailExist at h
    cases h1 : joiStringEmailRequired email with
    | some m =>
        rw [h1] at h
        exact ⟨joiError m, by
          rw [returnData_joiError]
          exact (Outcome.rejected.inj h).symm⟩
    | none =>
      rw [h1] at h
      cases h2 : joiStringRequired session with
      | some m =>
          rw [h2] at h
          exact ⟨joiError m, by
            rw [returnData_joiError]
            exact (Outcome.rejected.inj h).symm⟩
      | none =>
          rw [h2] at h
          exact runCall_rejected_inv client _ v h
  · intro ex hst
    exact returnData_of_ne_200 ex _ hst
  · intro ex hst
    exact returnData_of_200 ex _ hst

/-- C7 (witness): the amended theorem instantiated at the rejection produced
by a raised status-200 exception carrying string data. -/
theorem C7_amended_witness :
    ∃ ex, JsVal.vstr "oops" = returnData ex (.vobj []) :=
  C7_amended.1 (staticRaiseClient status200Ex) (.vstr "u1") (.vstr "tok")
    (.vstr "oops") rfl

/-- C8: every operation dispatches at most one transport call for any
client behavior and any input — in particular no retry happens after a
non-200 response or a raised exception — and dispatches exactly one call
when validation succeeds. -/
theorem C8_single_dispatch (client : Client)
    (userId session params email : JsVal) :
    ((findById client userId session).2.length ≤ 1 ∧
      ((joiStringRequired userId = none ∧ joiStringRequired session = none) →
        (findById client userId session).2.length = 1)) ∧
    ((findByIdAndUpdatePassword client params session).2.length ≤ 1 ∧
      ((joiObjectRequired params = none ∧
        joiStringRequired (params.getProp "userId") = none ∧
        joiStringRequired (params.getProp "oldPassword") = none ∧
        joiStringRequired (params.getProp "newPassword") = none ∧
        joiStringRequired session = none) →
        (findByIdAndUpdatePassword client params session).2.length = 1)) ∧
    ((emailExist client email session).2.length ≤ 1 ∧
      ((joiStringEmailRequired email = none ∧
        joiStringRequired session = none) →
        (emailExist client email session).2.length = 1)) := by
  refine ⟨⟨?_, ?_⟩, ⟨?_, ?_⟩, ⟨?_, ?_⟩⟩
  · unfold findById
    cases joiStringRequired userId with
    | some m => simp
    | none =>
      cases joiStringRequired session with
      | some m => simp
      | none => simp [runCall_trace]
  · rintro ⟨h1, h2⟩
    unfold findById
    rw [h1, h2]
    have ht : (runCall client
        (TransportCall.get ("/admin/users/" ++ jsTemplate userId)
          (setHeader session))).2.length = 1 := by
      rw [runCall_trace]
      rfl
    exact ht
  · unfold findByIdAndUpdatePassword
    cases joiObjectRequired params with
    | some m => simp
    | none =>
      cases joiStringRequired (params.getProp "userId") with
      | some m => simp
      | none =>
        cases joiStringRequired (params.getProp "oldPassword") with
        | some m => simp
        | none =>
          cases joiStringRequired (params.getProp "newPassword") with
          | some m => simp
          | none =>
            cases joiStringRequired session with
            | some m => simp
            | none => simp [runCall_trace]
  · rintro ⟨h0, h1, h2, h3, h4⟩
    unfold findByIdAndUpdatePassword
    rw [h0, h1, h2, h3, h4]
    have ht : (runCall client
        (TransportCall.put
          ("/admin/users/" ++ jsTemplate (params.getProp "userId") ++ "/password")
          (restWithoutUserId params)
          (setHeader session))).2.length = 1 := by
      rw [runCall_trace]
      rfl
    exact ht
  · unfold emailExist
    cases joiStringEmailRequired email with
    | some m => simp
    | none =>
      cases joiStringRequired session with
      | some m => simp
      | none => simp [runCall_trace]
  · rintro ⟨h1, h2⟩
    unfold emailExist
    rw [h1, h2]
    have ht : (runCall client
        (TransportCall.post "/admin/users/email/exist"
          (.vobj [("email", email)]) (setHeader session))).2.length = 1 := by
      rw [runCall_trace]
      rfl
    exact ht

/-- C8 (witness): the theorem at concrete valid inputs, against a stub that
returns a non-200 response (no retry: still exactly one call). -/
theorem C8_single_dispatch_witness :
    (findById (staticOkClient resp500) (.vstr "u1") (.vstr "tok")).2.length = 1 ∧
    (emailExist (staticRaiseClient resp500) (.vstr "ana@x.com")
      (.vstr "tok")).2.length = 1 := by
  constructor
  · exact ((C8_single_dispatch (staticOkClient resp500) (.vstr "u1")
      (.vstr "tok") (pwParams "u1" "a" "b") (.vstr "ana@x.com")).1).2
      ⟨rfl, rfl⟩
  · exact ((C8_single_dispatch (staticRaiseClient resp500) (.vstr "u1")
      (.vstr "tok") (pwParams "u1" "a" "b") (.vstr "ana@x.com")).2.2).2
      ⟨rfl, rfl⟩

/-- C9: the read path of `findById` mutates no state — two invocations whose
transports answer the issued GET identically produce identical results,
outcome and trace alike. -/
theorem C9_findById_idempotent (c1 c2 : Client) (userId session : JsVal)
    (h : c1 (.get ("/admin/users/" ++ jsTemplate userId) (setHeader session)) =
         c2 (.get ("/admin/users/" ++ jsTemplate userId) (setHeader session))) :
    findById c1 userId session = findById c2 userId session := by
  unfold findById
  cases joiStringRequired userId with
  | some m => rfl
  | none =>
    cases joiStringRequired session with
    | some m => rfl
    | none =>
      unfold runCall
      rw [h]

/-- C9 (witness): two differently-defined transports that agree on the GET
give `findById` identical results. -/
theorem C9_findById_idempotent_witness :
    findById (staticOkClient resp200) (.vstr "u1") (.vstr "tok") =
      findById getOnlyClient (.vstr "u1") (.vstr "tok") :=
  C9_findById_idempotent (staticOkClient resp200) getOnlyClient
    (.vstr "u1") (.vstr "tok") rfl

/-- C10: for every operation, when the transport raises an exception whose
status field equals 200, the operation rejects with the exception's data
field (empty object when absent): the catch branch feeds the caught value
through the same normalizer as a successful response. -/
theorem C10_raised_status200 (client : Client) (u o n em s : String)
    (ex : JsVal)
    (hu : u ≠ "") (ho : o ≠ "") (hn : n ≠ "") (hem : isEmailFormat em = true)
    (hs : s ≠ "")
    (hst : ex.getProp "status" = .vnum 200)
    (h1 : client (findByIdCall u s) = .raised ex)
    (h2 : client (updatePasswordCall u o n s) = .raised ex)
    (h3 : client (emailExistCall em s) = .raised ex) :
    (findById client (.vstr u) (.vstr s)).1 =
      .rejected (ex.getD "data" (.vobj [])) ∧
    (findByIdAndUpdatePassword client (pwParams u o n) (.vstr s)).1 =
      .rejected (ex.getD "data" (.vobj [])) ∧
    (emailExist client (.vstr em) (.vstr s)).1 =
      .rejected (ex.getD "data" (.vobj [])) := by
  rw [findById_run client u s hu hs, runCall_raised _ _ _ h1,
      findByIdAndUpdatePassword_run client u o n s hu ho hn hs,
      runCall_raised _ _ _ h2,
      emailExist_run client em s hem hs, runCall_raised _ _ _ h3,
      returnData_of_200 ex _ hst]
  exact ⟨rfl, rfl, rfl⟩

/-- C10 (witness): a raised status-200 exception with string data rejects
with that string; one with no data field rejects with the empty object. -/
theorem C10_raised_status200_witness :
    (findById (staticRaiseClient status200Ex) (.vstr "u1") (.vstr "tok")).1 =
      .rejected (.vstr "oops") ∧
    (emailExist (staticRaiseClient resp200bare) (.vstr "ana@x.com")
      (.vstr "tok")).1 = .rejected (.vobj []) := by
  constructor
  · exact (C10_raised_status200 (staticRaiseClient status200Ex) "u1" "a" "b"
      "ana@x.com" "tok" status200Ex (by decide) (by decide) (by decide) rfl
      (by decide) rfl rfl rfl rfl).1
  · exact (C10_raised_status200 (staticRaiseClient resp200bare) "u1" "a" "b"
      "ana@x.com" "tok" resp200bare (by decide) (by decide) (by decide) rfl
      (by decide) rfl rfl rfl rfl).2.2

end ApiSystemManager
